import Mathlib

/-!
Shallow embedding of the access-gated audio relay server
(`server/server.js` together with its configuration module `config.js`).

The embedding keeps the source's names where Lean allows it:
`getServerIP`, `isOnCorrectNetwork`, `requireNetworkAccess` (folded into
`dispatch`, which models the Express route table in registration order),
the upgrade handler (`onUpgrade`) and the WebSocket message handler that
forwards frames over UDP (`wsHandleEvent`, `wsRun`).
-/

namespace AudioRelay

/-- Deployment mode from `config.deployment.mode`: the string 'local' or
'public' in the source. -/
inductive DeploymentMode
  | localMode
  | publicMode
deriving DecidableEq, Repr

/-- Configuration object from `config.js` (`export const config`), restricted
to the fields the server consults.  Values are the source defaults (no
environment overrides). -/
structure WifiConfig where
  ssid : String
  password : String
deriving DecidableEq, Repr

structure HttpsConfig where
  enabled : Bool
  port : Nat
deriving DecidableEq, Repr

structure ServerConfig where
  port : Nat
  esp32Ip : String
  udpPort : Nat
  https : HttpsConfig
deriving DecidableEq, Repr

structure AdminConfig where
  password : String
deriving DecidableEq, Repr

structure Config where
  mode : DeploymentMode
  wifi : WifiConfig
  admin : AdminConfig
  server : ServerConfig
deriving DecidableEq, Repr

/-- `config.js` with its default values: mode 'local'
(`process.env.DEPLOYMENT_MODE || 'local'`), esp32Ip "192.168.1.25",
udpPort 5005, port 10000, HTTPS enabled on port 8443. -/
def config : Config :=
  { mode := DeploymentMode.localMode
  , wifi := { ssid := "Pathum", password := "PATHUM@@123" }
  , admin := { password := "admin123" }
  , server :=
      { port := 10000
      , esp32Ip := "192.168.1.25"
      , udpPort := 5005
      , https := { enabled := true, port := 8443 } } }

/-- JavaScript `String.prototype.replace` with a string pattern replaces only
the FIRST occurrence of the pattern.  This is the list-of-characters core of
that operation, used by `isOnCorrectNetwork` for
`clientIP.replace('::ffff:', '')`. -/
def replaceFirstList (pat repl : List Char) : List Char → List Char
  | [] => []
  | c :: cs =>
      if pat.isPrefixOf (c :: cs) then repl ++ List.drop pat.length (c :: cs)
      else c :: replaceFirstList pat repl cs

/-- `clientIP.replace('::ffff:', '')` from `isOnCorrectNetwork`
(server.js line 88): remove the IPv4-mapped-IPv6 prefix. -/
def stripMapped (s : String) : String :=
  String.mk (replaceFirstList "::ffff:".toList [] s.toList)

/-- JavaScript `String.prototype.split` with a one-character separator, on the
underlying character list: substrings between separator occurrences, empty
pieces preserved (`''.split('.') = ['']`, `'a..b'.split('.') = ['a','','b']`). -/
def splitChar (sep : Char) : List Char → List (List Char)
  | [] => [[]]
  | c :: cs =>
      let rest := splitChar sep cs
      if c == sep then [] :: rest
      else
        match rest with
        | [] => [[c]]
        | r :: rs => (c :: r) :: rs

/-- `s.split('.')` and friends: JavaScript string split with a one-character
separator. -/
def jsSplit (sep : Char) (s : String) : List String :=
  (splitChar sep s.toList).map String.mk

/-- The loopback test of `isOnCorrectNetwork` (server.js line 91):
`ip === '127.0.0.1' || ip === '::1' || ip === 'localhost'`. -/
def isLoopbackIP (ip : String) : Bool :=
  ip == "127.0.0.1" || ip == "::1" || ip == "localhost"

/-- The `sameSubnet` test of `isOnCorrectNetwork` (server.js lines 103-107):
the first three dot-separated components match (`===` per component). -/
def firstThreeEq (clientParts serverParts : List String) : Bool :=
  clientParts[0]! == serverParts[0]! &&
  clientParts[1]! == serverParts[1]! &&
  clientParts[2]! == serverParts[2]!

/-- `isOnCorrectNetwork` (server.js lines 78-117).  The request argument of
the source is replaced by the extracted client address
(`req.ip || req.connection.remoteAddress`); the captured `config.deployment.mode`
and `SERVER_IP` become explicit parameters. -/
def isOnCorrectNetwork (mode : DeploymentMode) (serverIP clientIP : String) : Bool :=
  -- PUBLIC MODE: allow all connections
  if mode == DeploymentMode.publicMode then true
  else
    -- LOCAL MODE: extract IP (remove IPv6 prefix if present)
    let ip := stripMapped clientIP
    -- if localhost, allow
    if isLoopbackIP ip then true
    else
      let clientParts := jsSplit '.' ip
      let serverParts := jsSplit '.' serverIP
      if clientParts.length == 4 && serverParts.length == 4 then
        if firstThreeEq clientParts serverParts then true else false
      else false

/-- One entry of `os.networkInterfaces()`, restricted to the fields
`getServerIP` consults. -/
structure NetInterface where
  family : String
  internal : Bool
  address : String
deriving DecidableEq, Repr

/-- The private-range test inside `getServerIP` (server.js lines 30-37):
split the address on '.', `parseInt` the first two components, and accept
192.168.x.x, 10.x.x.x and 172.16-31.x.x.  `String.toNat?` stands in for
`parseInt` (both agree on plain decimal components; `parseInt` on a
non-numeric component yields NaN, whose comparisons are all false, matching
the `none` branch). -/
def isPrivateIPv4 (ip : String) : Bool :=
  let parts := jsSplit '.' ip
  match (parts[0]!).toNat?, (parts[1]!).toNat? with
  | some 192, some 168 => true
  | some 10, _ => true
  | some 172, some second => decide (16 ≤ second ∧ second ≤ 31)
  | _, _ => false

/-- `getServerIP` (server.js lines 21-43): first non-internal IPv4 interface
with a private address; `'0.0.0.0'` when none is found.  The nested loop over
`os.networkInterfaces()` is flattened into one interface list. -/
def getServerIP (interfaces : List NetInterface) : String :=
  match interfaces.find? (fun iface =>
      iface.family == "IPv4" && !iface.internal && isPrivateIPv4 iface.address) with
  | some iface => iface.address
  | none => "0.0.0.0"

-- ---------------------- HTTP MODEL ----------------------

/-- The per-session data the server reads and writes through
`express-session`: the `authenticated` flag set by `requireNetworkAccess` and
`/api/login`, and the `adminAuthenticated` flag set by `/api/admin/login`.
A fresh session has both flags unset (JavaScript `undefined` is falsy). -/
structure SessionData where
  authenticated : Bool
  adminAuthenticated : Bool
deriving DecidableEq, Repr

/-- A fresh session: no flags set. -/
def freshSession : SessionData :=
  { authenticated := false, adminAuthenticated := false }

inductive HttpMethod
  | get
  | post
deriving DecidableEq, Repr

/-- An inbound HTTP request, restricted to what the modelled routes consult:
method, path, the client address extracted from the transport
(`req.ip || req.connection.remoteAddress`), the Host header (`req.get('host')`),
`req.protocol` (empty string models a missing value, so `req.protocol || 'http'`
falls back), and the `password` field of the JSON body for `/api/admin/login`. -/
structure HttpRequest where
  method : HttpMethod
  path : String
  clientIP : String
  host : String
  protocol : String
  bodyPassword : Option String
deriving DecidableEq, Repr

/-- What a route handler sends back, abstracted to the information the claims
are about.  `page p` is the underlying protected route (static site /
`index.html` fallback); `denialPage` is the fixed 403 page of
`requireNetworkAccess`, which interpolates only the configured WiFi SSID and
the deployment mode — no session data and no addresses. -/
inductive HttpBody
  | loginSuccess (ssid : String)
  | logoutSuccess
  | authStatus (authenticated : Bool)
  | adminLoginResult (ok : Bool)
  | qrCode
  | adminUnauthorized
  | healthOk
  | redirectBody
  | denialPage (ssid : String) (mode : DeploymentMode)
  | page (path : String)
deriving DecidableEq, Repr

structure HttpResponse where
  status : Nat
  location : Option String
  body : HttpBody
deriving DecidableEq, Repr

/-- JavaScript `String.prototype.startsWith`, used for
`req.path.startsWith('/api/admin')` in the network-validation middleware. -/
def jsStartsWith (pre s : String) : Bool :=
  pre.toList.isPrefixOf s.toList

/-- `getServerUrl` (server.js lines 306-315): canonical server URL used by the
captive-portal redirects. -/
def getServerUrl (serverIP : String) (req : HttpRequest) : String :=
  if serverIP != "0.0.0.0" then
    if config.server.https.enabled then
      "https://" ++ serverIP ++ ":" ++ toString config.server.https.port
    else
      "http://" ++ serverIP ++ ":" ++ toString config.server.port
  else
    let protocol := if req.protocol == "" then "http" else req.protocol
    protocol ++ "://" ++ req.host

/-- The fixed captive-portal probe paths registered at server.js
lines 317-338. -/
def captivePortalPaths : List String :=
  ["/hotspot-detect.html", "/generate_204", "/gen_204", "/ncsi.txt", "/connecttest.txt"]

/-- The Express application of server.js, modelled as a total function from a
request and the request's session to a response and the updated session.
Route matching follows the source's registration order (Express dispatches in
registration order, and each modelled handler ends the request):

1. `POST /api/login` (line 198) — sets `authenticated` unconditionally;
2. `POST /api/logout` (line 211) — destroys the session;
3. `GET /api/auth-status` (line 222);
4. `POST /api/admin/login` (line 229);
5. `GET /api/admin/qr-code` (line 244);
6. `GET /health` (line 300);
7. the captive-portal probes and `/redirect` (lines 317-343) — 302 redirects;
8. the network-validation middleware (lines 345-353), which skips
   `/api/admin*` and `/admin.html` and otherwise runs `requireNetworkAccess`
   (lines 120-184);
9. the static site / `index.html` fallback (lines 356-361), reached only via
   step 8's `next()` — modelled as `HttpBody.page`. -/
def dispatch (mode : DeploymentMode) (serverIP : String)
    (req : HttpRequest) (s : SessionData) : HttpResponse × SessionData :=
  if req.method == HttpMethod.post && req.path == "/api/login" then
    ({ status := 200, location := none, body := HttpBody.loginSuccess config.wifi.ssid },
     { s with authenticated := true })
  else if req.method == HttpMethod.post && req.path == "/api/logout" then
    ({ status := 200, location := none, body := HttpBody.logoutSuccess }, freshSession)
  else if req.method == HttpMethod.get && req.path == "/api/auth-status" then
    ({ status := 200, location := none, body := HttpBody.authStatus s.authenticated }, s)
  else if req.method == HttpMethod.post && req.path == "/api/admin/login" then
    if req.bodyPassword == some config.admin.password then
      ({ status := 200, location := none, body := HttpBody.adminLoginResult true },
       { s with adminAuthenticated := true })
    else
      ({ status := 401, location := none, body := HttpBody.adminLoginResult false }, s)
  else if req.method == HttpMethod.get && req.path == "/api/admin/qr-code" then
    if s.adminAuthenticated then
      ({ status := 200, location := none, body := HttpBody.qrCode }, s)
    else
      ({ status := 401, location := none, body := HttpBody.adminUnauthorized }, s)
  else if req.method == HttpMethod.get && req.path == "/health" then
    ({ status := 200, location := none, body := HttpBody.healthOk }, s)
  else if req.method == HttpMethod.get && captivePortalPaths.contains req.path then
    ({ status := 302, location := some (getServerUrl serverIP req),
       body := HttpBody.redirectBody }, s)
  else if req.method == HttpMethod.get && req.path == "/redirect" then
    ({ status := 302, location := some (getServerUrl serverIP req),
       body := HttpBody.redirectBody }, s)
  else if jsStartsWith "/api/admin" req.path || req.path == "/admin.html" then
    ({ status := 200, location := none, body := HttpBody.page req.path }, s)
  else if isOnCorrectNetwork mode serverIP req.clientIP then
    ({ status := 200, location := none, body := HttpBody.page req.path },
     if s.authenticated then s else { s with authenticated := true })
  else
    ({ status := 403, location := none,
       body := HttpBody.denialPage config.wifi.ssid mode }, s)

/-- A request matches one of the routes registered before the
network-validation middleware (steps 1-7 of `dispatch`), so it is answered
without ever reaching `requireNetworkAccess`. -/
def matchedBeforeGate (req : HttpRequest) : Bool :=
  (req.method == HttpMethod.post && req.path == "/api/login") ||
  (req.method == HttpMethod.post && req.path == "/api/logout") ||
  (req.method == HttpMethod.get && req.path == "/api/auth-status") ||
  (req.method == HttpMethod.post && req.path == "/api/admin/login") ||
  (req.method == HttpMethod.get && req.path == "/api/admin/qr-code") ||
  (req.method == HttpMethod.get && req.path == "/health") ||
  (req.method == HttpMethod.get && captivePortalPaths.contains req.path) ||
  (req.method == HttpMethod.get && req.path == "/redirect")

/-- The middleware's skip condition (server.js line 348):
`req.path.startsWith('/api/admin') || req.path === '/admin.html'`. -/
def adminSkip (req : HttpRequest) : Bool :=
  jsStartsWith "/api/admin" req.path || req.path == "/admin.html"

-- ---------------------- WEBSOCKET UPGRADE ----------------------

/-- The raw status line written to the socket by the upgrade handler on
refusal (server.js line 422). -/
def unauthorizedStatusLine : String := "HTTP/1.1 401 Unauthorized\r\n\r\n"

/-- What the `server.on('upgrade')` handler does with the underlying socket:
either it writes a status line and destroys the socket without completing the
upgrade, or it calls `wss.handleUpgrade`, whose completion callback emits the
`connection` event (creating the relay connection). -/
inductive UpgradeOutcome
  | rejected (statusLine : String) (socketDestroyed : Bool)
  | connected
deriving DecidableEq, Repr

/-- The `server.on('upgrade')` handler (server.js lines 418-431).  After
`sessionMiddleware` has populated `request.session` (modelled as an
`Option SessionData`: `none` when no session could be attached), the handler
refuses with a 401 status line and destroys the socket unless the session
exists and is authenticated. -/
def onUpgrade (sess : Option SessionData) : UpgradeOutcome :=
  match sess with
  | none => UpgradeOutcome.rejected unauthorizedStatusLine true
  | some s =>
      if !s.authenticated then UpgradeOutcome.rejected unauthorizedStatusLine true
      else UpgradeOutcome.connected

-- ---------------------- RELAY / UDP ----------------------

/-- One outbound UDP datagram: `udp.send(data, UDP_PORT, ESP32_IP)`
(server.js line 445). -/
structure Datagram where
  payload : List Nat
  port : Nat
  ip : String
deriving DecidableEq, Repr

/-- Events delivered to one accepted WebSocket connection. -/
inductive WsEvent
  | message (data : List Nat)
  | closeEvent
  | errorEvent (msg : String)
deriving DecidableEq, Repr

/-- The per-connection event handlers registered in `wss.on("connection")`
(server.js lines 439-455): a `message` event forwards the frame to the ESP32
as a single datagram; `close` and `error` only log. -/
def wsHandleEvent : WsEvent → List Datagram
  | WsEvent.message data =>
      [{ payload := data, port := config.server.udpPort, ip := config.server.esp32Ip }]
  | WsEvent.closeEvent => []
  | WsEvent.errorEvent _ => []

/-- The datagrams one accepted connection sends over its lifetime, given its
event sequence in arrival order. -/
def wsRun (events : List WsEvent) : List Datagram :=
  events.flatMap wsHandleEvent

/-- The datagrams attributable to one upgrade attempt: none when the upgrade
is refused (no `connection` event is ever emitted, so no handlers run), and
`wsRun` of the connection's events when it is accepted. -/
def upgradeDatagrams (sess : Option SessionData) (events : List WsEvent) : List Datagram :=
  match onUpgrade sess with
  | UpgradeOutcome.rejected _ _ => []
  | UpgradeOutcome.connected => wsRun events

-- ---------------------- HELPER LEMMAS ----------------------

/-- Exact characterization of the subnet authorizer in local
(SubnetRestricted) mode, shared by several claim theorems below. -/
theorem isOnCorrectNetwork_local_iff (serverIP clientIP : String) :
    isOnCorrectNetwork DeploymentMode.localMode serverIP clientIP = true ↔
      (isLoopbackIP (stripMapped clientIP) = true ∨
        ((jsSplit '.' (stripMapped clientIP)).length = 4 ∧
         (jsSplit '.' serverIP).length = 4 ∧
         firstThreeEq (jsSplit '.' (stripMapped clientIP)) (jsSplit '.' serverIP) = true)) := by
  simp only [isOnCorrectNetwork]
  cases hloop : isLoopbackIP (stripMapped clientIP) <;>
    cases hclen : (jsSplit '.' (stripMapped clientIP)).length == 4 <;>
      cases hslen : (jsSplit '.' serverIP).length == 4 <;>
        cases hsub : firstThreeEq (jsSplit '.' (stripMapped clientIP)) (jsSplit '.' serverIP) <;>
          simp_all

/-- Replacing the first occurrence of a non-empty pattern in a list that
begins with that pattern removes exactly that leading occurrence. -/
theorem replaceFirstList_self_prefix (p : Char) (ps repl l : List Char) :
    replaceFirstList (p :: ps) repl ((p :: ps) ++ l) = repl ++ l := by
  have hpre : (p :: ps).isPrefixOf ((p :: ps) ++ l) = true :=
    List.isPrefixOf_iff_prefix.mpr (List.prefix_append _ _)
  rw [List.cons_append, replaceFirstList, ← List.cons_append, hpre]
  simp [List.drop_left]

/-- A pattern whose first character never occurs in the list never matches, so
replacing its first occurrence is the identity. -/
theorem replaceFirstList_no_head (p : Char) (ps repl : List Char) :
    ∀ l : List Char, p ∉ l → replaceFirstList (p :: ps) repl l = l := by
  intro l
  induction l with
  | nil => intro _; rfl
  | cons c cs ih =>
      intro h
      have hne : (p == c) = false :=
        beq_eq_false_iff_ne.mpr (fun he => h (he ▸ List.mem_cons_self c cs))
      have hpre : (p :: ps).isPrefixOf (c :: cs) = false := by
        simp [List.isPrefixOf, hne]
      rw [replaceFirstList, hpre]
      simp only [Bool.false_eq_true, if_false, List.cons.injEq, true_and]
      exact ih (fun hm => h (List.mem_cons_of_mem _ hm))

/-- Stripping the IPv4-mapped prefix from `'::ffff:' + s` yields `s`. -/
theorem stripMapped_mapped (s : String) : stripMapped ("::ffff:" ++ s) = s := by
  obtain ⟨l⟩ := s
  show String.mk (replaceFirstList "::ffff:".toList []
      (String.toList ("::ffff:" ++ String.mk l))) = String.mk l
  have hl : String.toList ("::ffff:" ++ String.mk l) = "::ffff:".toList ++ l := rfl
  rw [hl, show "::ffff:".toList = ':' :: ":ffff:".toList from rfl,
    replaceFirstList_self_prefix]
  rfl

/-- A client address containing no colon is unchanged by the prefix strip. -/
theorem stripMapped_eq_self (s : String) (h : ':' ∉ s.toList) : stripMapped s = s := by
  obtain ⟨l⟩ := s
  show String.mk (replaceFirstList "::ffff:".toList [] l) = String.mk l
  rw [show "::ffff:".toList = ':' :: ":ffff:".toList from rfl,
    replaceFirstList_no_head _ _ _ l h]

-- ---------------------- CLAIM THEOREMS ----------------------

/-- Claim C1: under SubnetRestricted (local) mode, the authorization decision
is allow if and only if the derived client address (after IPv4-mapped-prefix
extraction, the address form the authorizer compares) is a loopback address,
or the client and server addresses both split on '.' into exactly four
components whose leading three components are equal component-by-component;
every other case is deny. -/
theorem subnet_restricted_allow_iff (serverIP clientIP : String) :
    isOnCorrectNetwork DeploymentMode.localMode serverIP clientIP = true ↔
      (isLoopbackIP (stripMapped clientIP) = true ∨
        ((jsSplit '.' (stripMapped clientIP)).length = 4 ∧
         (jsSplit '.' serverIP).length = 4 ∧
         firstThreeEq (jsSplit '.' (stripMapped clientIP)) (jsSplit '.' serverIP) = true)) :=
  isOnCorrectNetwork_local_iff serverIP clientIP

/-- Claim C6: under Open (public) mode the authorizer allows every input, for
every client address and every server address. -/
theorem open_mode_allows_all (serverIP clientIP : String) :
    isOnCorrectNetwork DeploymentMode.publicMode serverIP clientIP = true := rfl

/-- Claim C9: for a client address of the form `'::ffff:' + s` where `s` is a
plain (colon-free) IPv4 address, the authorization decision equals the
decision for `s` itself, with the same server address and mode: the
`'::ffff:'` prefix is stripped before the loopback and subnet comparisons. -/
theorem ipv4_mapped_prefix_equiv (mode : DeploymentMode) (serverIP s : String)
    (h : ':' ∉ s.toList) :
    isOnCorrectNetwork mode serverIP ("::ffff:" ++ s) =
      isOnCorrectNetwork mode serverIP s := by
  cases mode with
  | publicMode => rfl
  | localMode =>
      simp only [isOnCorrectNetwork, stripMapped_mapped, stripMapped_eq_self s h]

/-- Witness for C9 at a concrete IPv4-mapped address. -/
theorem ipv4_mapped_prefix_equiv_witness :
    (':' ∉ "192.168.1.7".toList) ∧
    isOnCorrectNetwork DeploymentMode.localMode "192.168.1.100" ("::ffff:" ++ "192.168.1.7") =
      isOnCorrectNetwork DeploymentMode.localMode "192.168.1.100" "192.168.1.7" :=
  ⟨by decide, ipv4_mapped_prefix_equiv DeploymentMode.localMode "192.168.1.100"
    "192.168.1.7" (by decide)⟩

/-- Claim C10: under local mode, a non-loopback client address that does not
split on '.' into exactly four components (e.g. a plain IPv6 address) is
denied, whatever the server address. -/
theorem non_dotted_quad_denied (serverIP clientIP : String)
    (hloop : isLoopbackIP (stripMapped clientIP) = false)
    (hlen : (jsSplit '.' (stripMapped clientIP)).length ≠ 4) :
    isOnCorrectNetwork DeploymentMode.localMode serverIP clientIP = false := by
  refine Bool.eq_false_iff.mpr (fun hres => ?_)
  rcases (isOnCorrectNetwork_local_iff serverIP clientIP).mp hres with h | ⟨h4, _, _⟩
  · rw [hloop] at h
    exact Bool.false_ne_true h
  · exact hlen h4

/-- Witness for C10 at the plain IPv6 address `fe80::1`. -/
theorem non_dotted_quad_denied_witness :
    isLoopbackIP (stripMapped "fe80::1") = false ∧
    (jsSplit '.' (stripMapped "fe80::1")).length ≠ 4 ∧
    isOnCorrectNetwork DeploymentMode.localMode "192.168.1.100" "fe80::1" = false :=
  ⟨by decide, by decide,
    non_dotted_quad_denied "192.168.1.100" "fe80::1" (by decide) (by decide)⟩

/-- Counterexample to claim C5 as stated: with the fallback server address
`'0.0.0.0'` (returned by `getServerIP` when no private non-loopback interface
exists), the non-loopback client `0.0.0.1` is ALLOWED, because `'0.0.0.0'`
splits into four components and the client's first three components equal the
fallback's.  The code does not deny every non-loopback client. -/
theorem fallback_server_ip_allows_zero_subnet_client :
    getServerIP [] = "0.0.0.0" ∧
    isLoopbackIP (stripMapped "0.0.0.1") = false ∧
    isOnCorrectNetwork DeploymentMode.localMode (getServerIP []) "0.0.0.1" = true :=
  ⟨rfl, by decide, by decide⟩

/-- Claim C5 as amended: with the fallback server address `'0.0.0.0'`, every
non-loopback client whose first three dot-separated components are not all
`'0'` (that is, every non-loopback client outside the 0.0.0.0/24 block that
happens to match the fallback address) is denied. -/
theorem fallback_server_ip_denies_outside_zero_subnet (clientIP : String)
    (hloop : isLoopbackIP (stripMapped clientIP) = false)
    (hsub : firstThreeEq (jsSplit '.' (stripMapped clientIP)) (jsSplit '.' "0.0.0.0") = false) :
    isOnCorrectNetwork DeploymentMode.localMode (getServerIP []) clientIP = false := by
  have hsrv : getServerIP [] = "0.0.0.0" := rfl
  rw [hsrv]
  refine Bool.eq_false_iff.mpr (fun hres => ?_)
  rcases (isOnCorrectNetwork_local_iff "0.0.0.0" clientIP).mp hres with h | ⟨_, _, h3⟩
  · rw [hloop] at h
    exact Bool.false_ne_true h
  · rw [hsub] at h3
    exact Bool.false_ne_true h3

/-- Witness for the amended C5 at the public client `8.8.8.8`. -/
theorem fallback_server_ip_denies_outside_zero_subnet_witness :
    isLoopbackIP (stripMapped "8.8.8.8") = false ∧
    firstThreeEq (jsSplit '.' (stripMapped "8.8.8.8")) (jsSplit '.' "0.0.0.0") = false ∧
    isOnCorrectNetwork DeploymentMode.localMode (getServerIP []) "8.8.8.8" = false :=
  ⟨by decide, by decide,
    fallback_server_ip_denies_outside_zero_subnet "8.8.8.8" (by decide) (by decide)⟩

/-- Claim C4: the downstream endpoint is the fixed configured ESP32 address
and UDP port, and for every event sequence of an accepted connection the
relay sends exactly one outbound datagram per binary frame, whose payload is
the frame's bytes unmodified and whose destination is that fixed endpoint,
in arrival order (and sends nothing for close/error events): the sent
datagram list is exactly the in-order image of the message frames. -/
theorem relay_forwards_frames_unmodified_in_order :
    config.server.esp32Ip = "192.168.1.25" ∧ config.server.udpPort = 5005 ∧
    ∀ events : List WsEvent,
      wsRun events = events.filterMap (fun e =>
        match e with
        | WsEvent.message data =>
            some { payload := data, port := config.server.udpPort
                 , ip := config.server.esp32Ip }
        | WsEvent.closeEvent => none
        | WsEvent.errorEvent _ => none) := by
  refine ⟨rfl, rfl, fun events => ?_⟩
  induction events with
  | nil => rfl
  | cons e es ih =>
      cases e <;>
        simp only [wsRun, List.flatMap_cons, List.filterMap_cons, wsHandleEvent] <;>
        simp only [wsRun] at ih <;> simp [ih]

/-- Claim C3: a WebSocket upgrade attempt whose request carries no session, or
a session that is not authenticated, is refused at the protocol-upgrade
boundary: the handler writes the 401 status line and destroys the socket, the
upgrade-completion handler is never called (the outcome is `rejected`, not
`connected`), and no datagram attributable to the attempt is ever sent. -/
theorem upgrade_rejected_when_unauthenticated (sess : Option SessionData)
    (h : ∀ s, sess = some s → s.authenticated = false) :
    onUpgrade sess = UpgradeOutcome.rejected unauthorizedStatusLine true ∧
    ∀ events : List WsEvent, upgradeDatagrams sess events = [] := by
  cases sess with
  | none => exact ⟨rfl, fun _ => rfl⟩
  | some s =>
      have hs : s.authenticated = false := h s rfl
      refine ⟨?_, fun events => ?_⟩
      · simp [onUpgrade, hs]
      · simp [upgradeDatagrams, onUpgrade, hs]

/-- Witness for C3: an unauthenticated session's upgrade attempt is rejected
and even a pending audio frame produces no datagram. -/
theorem upgrade_rejected_when_unauthenticated_witness :
    onUpgrade (some freshSession) = UpgradeOutcome.rejected unauthorizedStatusLine true ∧
    upgradeDatagrams (some freshSession) [WsEvent.message [1, 2, 3]] = [] := by
  have h := upgrade_rejected_when_unauthenticated (some freshSession)
    (fun s hs => by cases hs; rfl)
  exact ⟨h.1, h.2 [WsEvent.message [1, 2, 3]]⟩

/-- Claim C2 fails on the code: `POST /api/login` (server.js line 198) is
registered BEFORE the network-validation middleware (line 346), so Express
answers it without any subnet check and the handler sets
`req.session.authenticated = true` unconditionally.  This theorem evaluates
the model at the failing input: a client at the public address `8.8.8.8`
(denied by the subnet authorizer, first conjunct) that POSTs `/api/login`
obtains a session with `authenticated = true` (second conjunct) and a 200
response (third conjunct), and that session then passes the WebSocket
upgrade gate (fourth conjunct) — contradicting the handler's own comment
that "just being on the WiFi network" is the credential. -/
theorem login_route_sets_authenticated_off_subnet :
    isOnCorrectNetwork DeploymentMode.localMode "192.168.1.100" "8.8.8.8" = false ∧
    (dispatch DeploymentMode.localMode "192.168.1.100"
        { method := HttpMethod.post, path := "/api/login", clientIP := "8.8.8.8"
        , host := "192.168.1.100:8443", protocol := "https", bodyPassword := none }
        freshSession).2.authenticated = true ∧
    (dispatch DeploymentMode.localMode "192.168.1.100"
        { method := HttpMethod.post, path := "/api/login", clientIP := "8.8.8.8"
        , host := "192.168.1.100:8443", protocol := "https", bodyPassword := none }
        freshSession).1.status = 200 ∧
    onUpgrade (some (dispatch DeploymentMode.localMode "192.168.1.100"
        { method := HttpMethod.post, path := "/api/login", clientIP := "8.8.8.8"
        , host := "192.168.1.100:8443", protocol := "https", bodyPassword := none }
        freshSession).2) = UpgradeOutcome.connected := by
  decide

/-- Claim C7: every request that reaches the HTTP Gate (matches no
earlier-registered route and is not on the admin skip list) and whose client
address fails the subnet check receives status 403 with the fixed denial page
— a page depending only on the configured SSID and deployment mode, leaking
no session data and no addresses — the session is unchanged and the
underlying route (`HttpBody.page`) is never reached; `dispatch` is a total
function, so the denial is never fatal. -/
theorem http_gate_denies_with_fixed_page (mode : DeploymentMode) (serverIP : String)
    (req : HttpRequest) (s : SessionData)
    (hroute : matchedBeforeGate req = false)
    (hskip : adminSkip req = false)
    (hdeny : isOnCorrectNetwork mode serverIP req.clientIP = false) :
    dispatch mode serverIP req s =
      ({ status := 403, location := none,
         body := HttpBody.denialPage config.wifi.ssid mode }, s) := by
  simp only [matchedBeforeGate, Bool.or_eq_false_iff] at hroute
  obtain ⟨⟨⟨⟨⟨⟨⟨h1, h2⟩, h3⟩, h4⟩, h5⟩, h6⟩, h7⟩, h8⟩ := hroute
  simp only [adminSkip, Bool.or_eq_false_iff] at hskip
  obtain ⟨h9, h10⟩ := hskip
  simp only [dispatch, h1, h2, h3, h4, h5, h6, h7, h8, h9, h10, hdeny]
  simp

/-- Witness for C7: a GET for the site root from the public address `8.8.8.8`
in local mode is answered with the 403 denial page and an unchanged session. -/
theorem http_gate_denies_with_fixed_page_witness :
    matchedBeforeGate
        { method := HttpMethod.get, path := "/", clientIP := "8.8.8.8"
        , host := "192.168.1.100:8443", protocol := "https", bodyPassword := none } = false ∧
    adminSkip
        { method := HttpMethod.get, path := "/", clientIP := "8.8.8.8"
        , host := "192.168.1.100:8443", protocol := "https", bodyPassword := none } = false ∧
    isOnCorrectNetwork DeploymentMode.localMode "192.168.1.100" "8.8.8.8" = false ∧
    dispatch DeploymentMode.localMode "192.168.1.100"
        { method := HttpMethod.get, path := "/", clientIP := "8.8.8.8"
        , host := "192.168.1.100:8443", protocol := "https", bodyPassword := none }
        freshSession =
      ({ status := 403, location := none,
         body := HttpBody.denialPage config.wifi.ssid DeploymentMode.localMode },
       freshSession) :=
  ⟨by decide, by decide, by decide,
    http_gate_denies_with_fixed_page DeploymentMode.localMode "192.168.1.100"
      { method := HttpMethod.get, path := "/", clientIP := "8.8.8.8"
      , host := "192.168.1.100:8443", protocol := "https", bodyPassword := none }
      freshSession (by decide) (by decide) (by decide)⟩

/-- Claim C8: every GET request to one of the fixed captive-portal probe
paths receives a 302 redirect to the canonical server URL, for every
deployment mode, every client address and every session state — the probe
routes are registered before the network-validation middleware, so the
redirect happens for denied clients too and the session is unchanged. -/
theorem captive_portal_redirect_bypasses_gate (mode : DeploymentMode)
    (serverIP : String) (req : HttpRequest) (s : SessionData)
    (hm : req.method = HttpMethod.get)
    (hp : req.path ∈ captivePortalPaths) :
    dispatch mode serverIP req s =
      ({ status := 302, location := some (getServerUrl serverIP req),
         body := HttpBody.redirectBody }, s) := by
  simp only [captivePortalPaths, List.mem_cons, List.not_mem_nil, or_false] at hp
  rcases hp with h | h | h | h | h <;>
    (simp only [dispatch]; rw [hm, h]; rfl)

/-- Witness for C8: an Android connectivity probe (`/generate_204`) from the
denied public client `8.8.8.8` in local mode is redirected, not denied. -/
theorem captive_portal_redirect_bypasses_gate_witness :
    ({ method := HttpMethod.get, path := "/generate_204", clientIP := "8.8.8.8"
     , host := "example.com", protocol := "http"
     , bodyPassword := none } : HttpRequest).method = HttpMethod.get ∧
    ({ method := HttpMethod.get, path := "/generate_204", clientIP := "8.8.8.8"
     , host := "example.com", protocol := "http"
     , bodyPassword := none } : HttpRequest).path ∈ captivePortalPaths ∧
    dispatch DeploymentMode.localMode "192.168.1.100"
        { method := HttpMethod.get, path := "/generate_204", clientIP := "8.8.8.8"
        , host := "example.com", protocol := "http", bodyPassword := none }
        freshSession =
      ({ status := 302,
         location := some (getServerUrl "192.168.1.100"
           { method := HttpMethod.get, path := "/generate_204", clientIP := "8.8.8.8"
           , host := "example.com", protocol := "http", bodyPassword := none }),
         body := HttpBody.redirectBody }, freshSession) :=
  ⟨rfl, by decide,
    captive_portal_redirect_bypasses_gate DeploymentMode.localMode "192.168.1.100"
      { method := HttpMethod.get, path := "/generate_204", clientIP := "8.8.8.8"
      , host := "example.com", protocol := "http", bodyPassword := none }
      freshSession rfl (by decide)⟩

end AudioRelay

-- Concrete evaluations of the authorizer on representative addresses.
example : AudioRelay.isOnCorrectNetwork AudioRelay.DeploymentMode.localMode
    "192.168.1.100" "192.168.1.50" = true := by decide

example : AudioRelay.isOnCorrectNetwork AudioRelay.DeploymentMode.localMode
    "192.168.1.100" "192.168.2.50" = false := by decide

example : AudioRelay.isOnCorrectNetwork AudioRelay.DeploymentMode.localMode
    "192.168.1.100" "::ffff:192.168.1.7" = true := by decide

example : AudioRelay.isOnCorrectNetwork AudioRelay.DeploymentMode.localMode
    "0.0.0.0" "0.0.0.1" = true := by decide

example : AudioRelay.isOnCorrectNetwork AudioRelay.DeploymentMode.localMode
    "192.168.1.100" "127.0.0.1" = true := by decide

example : AudioRelay.isOnCorrectNetwork AudioRelay.DeploymentMode.localMode
    "192.168.1.100" "fe80::1" = false := by decide
